import Mathlib

/-!
Verification of the Maintainerr-Poster-Overlay-for-Kometa scripts.

This file gives a shallow embedding, in Lean 4, of the parts of
`returning_series_manager.py` and `kometa_maintainerr_overlay_yaml.py`
that the specification talks about, and proves (or refutes) the stated
properties over that embedding.

Modelling conventions:
- Filesystem paths are lists of path components (a directory is a
  `List String`; a file is identified by its containing directory plus
  its basename).  This mirrors `os.path.join` / `os.walk` structurally:
  joining appends a component; walking a root visits every file whose
  directory has the root as a prefix.
- Python dictionaries with string keys map to association lists
  (`List (String × PyVal)`) whose key lists are duplicate-free.
- Python values that may be `None`, strings, integers or booleans map to
  the `PyVal` inductive; Python truthiness is `PyVal.truthy`.
- Blocking HTTP calls are modelled by their observable results: a fetch
  that raises `RequestException` is the value `Option.none`.
- Filesystem writes are modelled as succeeding; an exception raised by a
  write in the terminal YAML-emission step is modelled by the `writeOk`
  boolean, since the source catches it and continues.
-/

/-- Python-style scalar values as they occur in the style dictionaries. -/
inductive PyVal where
  | null : PyVal
  | str : String → PyVal
  | int : Int → PyVal
  | bool : Bool → PyVal
deriving DecidableEq, Repr

/-- Python truthiness for `PyVal`. -/
def PyVal.truthy : PyVal → Bool
  | .null => false
  | .str s => s ≠ ""
  | .int n => n ≠ 0
  | .bool b => b

/-- Python `str()` rendering, as used inside f-strings. -/
def PyVal.render : PyVal → String
  | .null => "None"
  | .str s => s
  | .int n => toString n
  | .bool b => if b then "True" else "False"

/-- A Python dict with string keys, as an association list. -/
abbrev Dict := List (String × PyVal)

/-- Lookup in a dict (first matching key wins). Models `d.get(k)`. -/
def dictGet (d : Dict) (k : String) : Option PyVal :=
  match d with
  | [] => Option.none
  | (k2, v) :: rest => if k2 = k then some v else dictGet rest k

/-- Models `d[k] = v`: replace the first binding of `k`, or append one. -/
def dictSet (d : Dict) (k : String) (v : PyVal) : Dict :=
  match d with
  | [] => [(k, v)]
  | (k2, v2) :: rest => if k2 = k then (k, v) :: rest else (k2, v2) :: dictSet rest k v

/-- Models `del d[k]` (total: removing an absent key is a no-op here). -/
def dictRemove (d : Dict) (k : String) : Dict :=
  d.filter fun kv => !(kv.1 == k)

/-- Models `d.pop(k, default)`: the value (or default) and the remaining dict. -/
def dictPop (d : Dict) (k : String) (default : PyVal) : PyVal × Dict :=
  match dictGet d k with
  | some v => (v, dictRemove d k)
  | Option.none => (default, d)

/-- Python `s.lower()` (ASCII case folding, per character). -/
def strToLower (s : String) : String :=
  String.mk (s.data.map Char.toLower)

/-- Python `s.endswith(suffix)` on strings. -/
def strEndsWith (s suffix : String) : Bool :=
  suffix.data.isSuffixOf s.data

/-- One file on disk: its containing directory, basename and byte content. -/
structure FSFile where
  dir : List String
  name : String
  content : List Nat
deriving DecidableEq, Repr

/-- A snapshot of the filesystem: the existing directories and files. -/
structure FS where
  dirs : List (List String)
  files : List FSFile
deriving DecidableEq, Repr

/-- Is there a file with basename `n` directly inside directory `d`? -/
def FS.fileAt (fs : FS) (d : List String) (n : String) : Bool :=
  fs.files.any fun e => e.dir == d && e.name == n

/-- Models `os.path.exists(p)` for a component path `p` (directory or file). -/
def FS.pathExists (fs : FS) (p : List String) : Bool :=
  fs.dirs.contains p || fs.files.any fun e => e.dir ++ [e.name] == p

/-- Content of the file at `(d, n)`, if any. -/
def FS.contentAt (fs : FS) (d : List String) (n : String) : Option (List Nat) :=
  (fs.files.find? fun e => e.dir == d && e.name == n).map FSFile.content

/-- Number of file entries at `(d, n)`. -/
def FS.countAt (fs : FS) (d : List String) (n : String) : Nat :=
  (fs.files.filter fun e => e.dir == d && e.name == n).length

/-- Models a successful `open(..., 'wb')` write of a new file. -/
def FS.addFile (fs : FS) (d : List String) (n : String) (c : List Nat) : FS :=
  { fs with files := ⟨d, n, c⟩ :: fs.files }

/-- The `VIDEO_EXTENSIONS` constant of `returning_series_manager.py`. -/
def VIDEO_EXTENSIONS : List String :=
  [".mkv", ".mp4", ".avi", ".m4v", ".mov", ".wmv"]

/-- Embeds `has_real_media(show_path, stub_suffix)` (lines 115-124 of
`returning_series_manager.py`): returns true when the path exists and the
walk of the tree finds a file whose lowercased name ends in a recognized
video extension and whose (raw) name does not end in the stub suffix. -/
def has_real_media (fs : FS) (show_path : List String) (stub_suffix : String) : Bool :=
  if !fs.pathExists show_path then false
  else fs.files.any fun e =>
    show_path.isPrefixOf e.dir &&
    (VIDEO_EXTENSIONS.any fun ext => strEndsWith (strToLower e.name) ext) &&
    !(strEndsWith e.name stub_suffix)

/-- Python `s.strip()`: drop leading and trailing whitespace. -/
def strStrip (s : String) : String :=
  String.mk (((s.data.dropWhile Char.isWhitespace).reverse.dropWhile Char.isWhitespace).reverse)

/-- The title sanitization of `create_stub_file` line 128: keep letters,
digits and the characters space, dot, dash, underscore, then strip. -/
def sanitizeTitle (t : String) : String :=
  strStrip (String.mk (t.data.filter fun c =>
    c.isAlpha || c.isDigit || c == ' ' || c == '.' || c == '-' || c == '_'))

/-- Embeds `create_stub_file(show_path, show_title, template_file, stub_suffix)`
(lines 126-155 of `returning_series_manager.py`).  The template file, when
configured, is given as a (directory, basename) pair; `Option.none` models a
falsy `template_file` config value.  A successful run returns `true` and the
updated filesystem; copying a template path that exists as a directory raises
in the source and is modelled as returning `false`.  Directory creation and
the byte write are modelled as succeeding. -/
def create_stub_file (fs : FS) (show_path : List String) (show_title : String)
    (template_file : Option (List String × String)) (stub_suffix : String) :
    Bool × FS :=
  let stub_filename := sanitizeTitle show_title ++ stub_suffix
  if fs.fileAt show_path stub_filename || fs.dirs.contains (show_path ++ [stub_filename]) then
    (true, fs)
  else
    let fs1 : FS :=
      if fs.pathExists show_path then fs else { fs with dirs := show_path :: fs.dirs }
    match template_file with
    | some (d, n) =>
        match fs1.contentAt d n with
        | some c => (true, fs1.addFile show_path stub_filename c)
        | Option.none =>
            if fs1.dirs.contains (d ++ [n]) then (false, fs1)
            else (true, fs1.addFile show_path stub_filename (List.replicate 1024 0))
    | Option.none => (true, fs1.addFile show_path stub_filename (List.replicate 1024 0))

/-- One Plex media part (`part.file` may be missing / `None`). -/
structure PlexPart where
  file : Option String
deriving DecidableEq, Repr

/-- One Plex media item. -/
structure PlexMedia where
  parts : List PlexPart
deriving DecidableEq, Repr

/-- One Plex episode: title, backing media and watched flag. -/
structure PlexEpisode where
  title : String
  media : List PlexMedia
  isWatched : Bool
deriving DecidableEq, Repr

/-- The `is_this_stub` computation of `process_plex_label` (lines 181-187):
some part of some media of the episode has a truthy file path ending in the
stub suffix. -/
def isStubEpisode (stub_suffix : String) (ep : PlexEpisode) : Bool :=
  ep.media.any fun m => m.parts.any fun p =>
    match p.file with
    | some f => f ≠ "" && strEndsWith f stub_suffix
    | Option.none => false

/-- Embeds the episode loop of `process_plex_label` (lines 179-194): walk the
episode list in order, and at the first episode whose backing file ends in the
stub suffix, mark it watched (if not already) and stop.  All other episodes
are returned unchanged; finding no stub episode is not a failure. -/
def markStubWatched (stub_suffix : String) : List PlexEpisode → List PlexEpisode
  | [] => []
  | ep :: rest =>
    if isStubEpisode stub_suffix ep then
      (if ep.isWatched then ep else { ep with isWatched := true }) :: rest
    else ep :: markStubWatched stub_suffix rest

/-- The override loop shared by `merge_styles` (lines 207-209) and
`get_merged_style` (lines 220-222): copy the defaults and assign every
override entry whose value passes `cond`, in order. -/
def mergeLoop (cond : PyVal → Bool) (init specific : Dict) : Dict :=
  specific.foldl
    (fun acc kv => if cond kv.2 then dictSet acc kv.1 kv.2 else acc)
    init

/-- Embeds `merge_styles(global_defaults, specific_style)` (lines 203-210 of
`returning_series_manager.py`): keys of the override whose value is not
`None` replace the default; a falsy override dict yields the defaults. -/
def merge_styles (global_defaults specific_style : Dict) : Dict :=
  if specific_style = [] then global_defaults
  else mergeLoop (fun v => !(v == PyVal.null)) global_defaults specific_style

/-- Embeds `validate_font(style_dict)` (lines 212-221): if the style has a
truthy `font` value that does not exist on disk, drop the key.  The ambient
`os.path.exists` check is abstracted by the `fontExists` predicate. -/
def validate_font (fontExists : PyVal → Bool) (style : Dict) : Dict :=
  match dictGet style "font" with
  | some v => if v.truthy then (if fontExists v then style else dictRemove style "font") else style
  | Option.none => style

/-- One Sonarr series record as consumed by `process_sonarr_instance`
(lines 246-251): title, raw status string, monitored flag, optional TMDb id
and the declared storage path (as components). -/
structure ShowRec where
  title : String
  status : String
  monitored : Bool
  tmdbId : Option Int
  path : List String
deriving DecidableEq, Repr

/-- Python truthiness of the optional TMDb id (`if tmdb_id:`). -/
def optIntTruthy : Option Int → Bool
  | some n => n ≠ 0
  | Option.none => false

/-- The observable outcome of the per-show body of `process_sonarr_instance`
(lines 246-278): the filesystem afterwards, whether the needs-stub branch ran
`create_stub_file`, whether `process_plex_label` was invoked, and the id (if
any) appended to the instance list. -/
structure StepResult where
  fs : FS
  stubAttempted : Bool
  plexSynced : Bool
  idAdded : Option Int
deriving DecidableEq, Repr

/-- The derived local directory of a show (lines 255-257): the library path
plus the basename of the Sonarr-declared path. -/
def derivedShowPath (library_path : List String) (sh : ShowRec) : List String :=
  library_path ++ [sh.path.getLastD ""]

/-- Embeds one iteration of the show loop of `process_sonarr_instance`
(lines 246-278 of `returning_series_manager.py`).  The derived directory is
the library path plus the basename of the Sonarr-declared path (lines
255-257); unmonitored shows and shows whose lowercased status is outside
continuing/upcoming are skipped (line 259); shows with real media are skipped
(line 262); otherwise the stub is created, Plex is synced when a server is
connected and the TMDb id is truthy, and a truthy TMDb id is appended. -/
def processShow (library_path : List String)
    (template_file : Option (List String × String)) (stub_suffix : String)
    (plexConnected : Bool) (fs : FS) (sh : ShowRec) : StepResult :=
  let show_path := derivedShowPath library_path sh
  if !sh.monitored || !(strToLower sh.status == "continuing" || strToLower sh.status == "upcoming") then
    ⟨fs, false, false, Option.none⟩
  else if has_real_media fs show_path stub_suffix then
    ⟨fs, false, false, Option.none⟩
  else
    let fs1 := (create_stub_file fs show_path sh.title template_file stub_suffix).2
    let synced := plexConnected && optIntTruthy sh.tmdbId
    let added := if optIntTruthy sh.tmdbId then sh.tmdbId else Option.none
    ⟨fs1, true, synced, added⟩

/-- Python truthiness of an optional string setting. -/
def optStrTruthy : Option String → Bool
  | some s => s ≠ ""
  | Option.none => false

/-- Python truthiness of an optional component path setting. -/
def optPathTruthy : Option (List String) → Bool
  | some p => !p.isEmpty
  | Option.none => false

/-- One configured Sonarr instance, together with the observable result of
its inventory fetch: `fetchResult = Option.none` models `get_sonarr_series`
hitting a `RequestException` (lines 103-113), in which case the source
returns the empty list. -/
structure SonarrInstance where
  url : Option String
  api_key : Option String
  library_path : Option (List String)
  fetchResult : Option (List ShowRec)
deriving Repr

/-- Embeds `process_sonarr_instance` (lines 223-281): missing settings skip
the instance; a failed fetch yields no shows; otherwise the show loop runs,
threading the filesystem and appending truthy TMDb ids in order.  Returns
the collected ids and the filesystem afterwards. -/
def processInstance (template_file : Option (List String × String))
    (stub_suffix : String) (plexConnected : Bool) (fs : FS)
    (inst : SonarrInstance) : List Int × FS :=
  if !optStrTruthy inst.url || !optStrTruthy inst.api_key || !optPathTruthy inst.library_path then
    ([], fs)
  else
    let lib := inst.library_path.getD []
    let series := inst.fetchResult.getD []
    series.foldl
      (fun acc sh =>
        let r := processShow lib template_file stub_suffix plexConnected acc.2 sh
        (acc.1 ++ (match r.idAdded with | some v => [v] | Option.none => []), r.fs))
      ([], fs)

/-- Embeds the instance loop of `main` (lines 329-335): every instance is
processed in order, extending the master id list and threading the
filesystem. -/
def runAllInstances (template_file : Option (List String × String))
    (stub_suffix : String) (plexConnected : Bool) (fs : FS)
    (instances : List SonarrInstance) : List Int × FS :=
  instances.foldl
    (fun acc inst =>
      let r := processInstance template_file stub_suffix plexConnected acc.2 inst
      (acc.1 ++ r.1, r.2))
    ([], fs)

/-- Embeds the deduplication step `master_tmdb_ids = list(set(master_tmdb_ids))`
(line 338); `List.dedup` models the resulting set contents. -/
def masterIds (template_file : Option (List String × String))
    (stub_suffix : String) (plexConnected : Bool) (fs : FS)
    (instances : List SonarrInstance) : List Int :=
  (runAllInstances template_file stub_suffix plexConnected fs instances).1.dedup

/-- The single overlay entry of the generated Kometa YAML of
`returning_series_manager.py` (under the fixed key `returning_series`). -/
structure OverlayEntry where
  name : String
  style : Dict
  tmdb_show : List Int
deriving DecidableEq, Repr

/-- Embeds the construction of `kometa_data` in `main` (lines 346-370): an
empty id list yields the explicit clearing artifact (name `Returning Series`,
empty `tmdb_show` list); otherwise the merged and font-validated style is
used, the `text` key is popped (default `RETURNING`) into the overlay name,
and the ids are listed. -/
def generateOverlayData (fontExists : PyVal → Bool)
    (global_defaults overlay_override : Dict) (ids : List Int) : OverlayEntry :=
  if ids = [] then ⟨"Returning Series", [], []⟩
  else
    let st0 := validate_font fontExists (merge_styles global_defaults overlay_override)
    let p := dictPop st0 "text" (PyVal.str "RETURNING")
    ⟨"text(" ++ p.1.render ++ ")", p.2, ids⟩

/-- The observable outcome of the overlay-emission step of `main`. -/
inductive EmitOutcome where
  | skipped : EmitOutcome
  | configError : EmitOutcome
  | wrote : OverlayEntry → EmitOutcome
  | writeFailed : OverlayEntry → EmitOutcome
deriving DecidableEq, Repr

/-- The artifact an outcome attempted to write, if any. -/
def attemptedData : EmitOutcome → Option OverlayEntry
  | .wrote d => some d
  | .writeFailed d => some d
  | _ => Option.none

/-- Embeds step 7 of `main` (lines 342-378) plus the fact that line 380 is
always reached: if overlay generation is disabled nothing happens; a falsy
output path only logs an error; otherwise the artifact is built and written,
and a write exception is caught (`writeOk = false` gives the `writeFailed`
outcome).  The second component is whether the run reaches its terminal
completion line, which it always does. -/
def runEmission (generate : Bool) (path : Option String) (writeOk : Bool)
    (fontExists : PyVal → Bool) (global_defaults overlay_override : Dict)
    (ids : List Int) : EmitOutcome × Bool :=
  if !generate then (EmitOutcome.skipped, true)
  else
    match path with
    | Option.none => (EmitOutcome.configError, true)
    | some p =>
      if p = "" then (EmitOutcome.configError, true)
      else
        let data := generateOverlayData fontExists global_defaults overlay_override ids
        (if writeOk then EmitOutcome.wrote data else EmitOutcome.writeFailed data, true)

/-- Left-to-right non-overlapping replacement on character lists, with fuel;
models Python `str.replace` for a nonempty pattern. -/
def replaceAux : Nat → List Char → List Char → List Char → List Char
  | 0, s, _, _ => s
  | fuel + 1, s, pat, rep =>
    match s with
    | [] => []
    | c :: rest =>
      if pat ≠ [] && pat.isPrefixOf s then
        rep ++ replaceAux fuel (s.drop pat.length) pat rep
      else c :: replaceAux fuel rest pat rep

/-- Python `s.replace(pat, rep)` (for the nonempty patterns used here). -/
def strReplace (s pat rep : String) : String :=
  String.mk (replaceAux s.data.length s.data pat.data rep.data)

/-- The override loop of `get_merged_style` (lines 220-222 of
`kometa_maintainerr_overlay_yaml.py`): an override value is applied only when
it is neither `None` nor the empty string. -/
def mergeSpecific (final : Dict) (specific : Dict) : Dict :=
  mergeLoop (fun v => !(v == PyVal.null) && !(v == PyVal.str "")) final specific

/-- Embeds `get_merged_style(urgency, time_str)` (lines 216-238 of
`kometa_maintainerr_overlay_yaml.py`).  `global_defaults` models
`config['global_defaults']` and `specific` the per-urgency dict
`config['styles'][urgency]`.  After the merge, a falsy `font` value is
dropped; the `text` template (default `Deletion: \x7btime\x7d`) has
`\x7btime\x7d` substituted and is removed from the style.  A non-string
`text` value would raise in the source and yields `Option.none`. -/
def get_merged_style (global_defaults specific : Dict) (time_str : String) :
    Option (String × Dict) :=
  let final0 := mergeSpecific global_defaults specific
  let final1 :=
    match dictGet final0 "font" with
    | some v => if v.truthy then final0 else dictRemove final0 "font"
    | Option.none => final0
  match dictGet final1 "text" with
  | some (PyVal.str s) =>
      some ("text(" ++ strReplace s "\x7btime\x7d" time_str ++ ")", dictRemove final1 "text")
  | some _ => Option.none
  | Option.none =>
      some ("text(" ++ strReplace "Deletion: \x7btime\x7d" "\x7btime\x7d" time_str ++ ")", final1)

/-- The trigger thresholds as read from the config (`triggers.get(key, default)`
is applied inside the classifier, so absent keys are `Option.none` here). -/
structure TriggersCfg where
  critical_days : Option Int
  warning_days : Option Int
  notice_days : Option Int
  use_maintainerr_limit : Option Bool
deriving DecidableEq, Repr

/-- Round-half-to-even of `num / den` on exact ratios; models Python
`round(num / den)` for the nonnegative inputs used here. -/
def roundHalfEven (num den : Nat) : Nat :=
  let q := num / den
  let r := num % den
  if 2 * r < den then q
  else if 2 * r > den then q + 1
  else if q % 2 = 0 then q else q + 1

/-- Embeds `get_time_string_and_urgency(delta, collection_limit_days)`
(lines 178-189 of `kometa_maintainerr_overlay_yaml.py`).  A `timedelta` is
its normalized `days` (any integer) and `seconds` (in `[0, 86400)`); the
default thresholds 3 / 7 / 14 / disabled are the `.get` defaults of the
source. -/
def get_time_string_and_urgency (triggers : TriggersCfg) (days : Int)
    (seconds : Nat) (collection_limit_days : Int) :
    Option String × Option String :=
  let hours : Nat := roundHalfEven seconds 3600
  if days < 0 then (some "Expiring", some "critical")
  else if days < 1 then
    (some (if hours > 1 then s!"{hours} Hours" else "< 1 Hour"), some "critical")
  else if days < triggers.critical_days.getD 3 then (some s!"{days} Days", some "critical")
  else if days ≤ triggers.warning_days.getD 7 then (some s!"{days} Days", some "warning")
  else if days ≤ triggers.notice_days.getD 14 then (some s!"{days} Days", some "notice")
  else if triggers.use_maintainerr_limit.getD false && days ≤ collection_limit_days then
    (some s!"{days} Days", some "monitor")
  else (Option.none, Option.none)

/-- Embeds the admission guards of the item loop of `process_collection`
(lines 150-159): an item joins an overlay group only when the classifier
returned a truthy time string and urgency and a truthy external id was
found; the group key is `time_str|urgency`. -/
def itemGroupKey (classified : Option String × Option String)
    (idVal : Option Int) : Option String :=
  match classified with
  | (some ts, some us) =>
    if ts = "" || us = "" then Option.none
    else match idVal with
      | some v => if v ≠ 0 then some (ts ++ "|" ++ us) else Option.none
      | Option.none => Option.none
  | _ => Option.none

/-- Sample filesystem for C4: the show directory holds both a stub file and
a real episode. -/
def fsRealAndStub : FS :=
  { dirs := [["lib", "ShowA"]],
    files := [⟨["lib", "ShowA"], "ShowA- lock.mp4", [0]⟩,
              ⟨["lib", "ShowA"], "ep1.mkv", [1]⟩] }

/-- Sample monitored continuing show for C4. -/
def showA : ShowRec :=
  { title := "ShowA", status := "continuing", monitored := true,
    tmdbId := some 7, path := ["data", "ShowA"] }

/-- Sample filesystem whose only video file is stub-suffixed (C2 witness). -/
def fsOnlyStub : FS :=
  { dirs := [["lib", "ShowB"]],
    files := [⟨["lib", "ShowB"], "ShowB- lock.mp4", [0]⟩] }

/-- Helper: the `os.walk` search of `has_real_media`, as an existential. -/
theorem has_real_media_iff (fs : FS) (show_path : List String) (suffix : String) :
    has_real_media fs show_path suffix = true ↔
      (fs.pathExists show_path = true ∧ ∃ e ∈ fs.files,
        show_path.isPrefixOf e.dir = true ∧
        (∃ ext ∈ VIDEO_EXTENSIONS, strEndsWith (strToLower e.name) ext = true) ∧
        strEndsWith e.name suffix = false) := by
  unfold has_real_media
  by_cases h : fs.pathExists show_path = true
  · simp only [h, Bool.not_true, Bool.false_eq_true, if_false, true_and,
      List.any_eq_true, Bool.and_eq_true, Bool.not_eq_true', and_assoc]
  · rw [Bool.not_eq_true] at h
    simp [h]

/-- C2: `has_real_media` returns true exactly when the directory path exists
and some file under it (its directory extends the show path) has a name
ending case-insensitively in one of the six video extensions and not ending
in the stub suffix; it returns false when the path is absent, and when every
video file under the directory carries the stub suffix (in particular when
the directory is empty).  The embedded function is pure (no side effects). -/
theorem c2_hasRealMedia_characterization (fs : FS) (show_path : List String) (suffix : String) :
    (has_real_media fs show_path suffix = true ↔
      (fs.pathExists show_path = true ∧ ∃ e ∈ fs.files,
        show_path.isPrefixOf e.dir = true ∧
        (∃ ext ∈ VIDEO_EXTENSIONS, strEndsWith (strToLower e.name) ext = true) ∧
        strEndsWith e.name suffix = false)) ∧
    (fs.pathExists show_path = false → has_real_media fs show_path suffix = false) ∧
    ((∀ e ∈ fs.files, show_path.isPrefixOf e.dir = true →
        (∃ ext ∈ VIDEO_EXTENSIONS, strEndsWith (strToLower e.name) ext = true) →
        strEndsWith e.name suffix = true) →
      has_real_media fs show_path suffix = false) := by
  refine ⟨has_real_media_iff fs show_path suffix, ?_, ?_⟩
  · intro h
    simp [has_real_media, h]
  · intro hall
    by_contra hmem
    rw [Bool.not_eq_false] at hmem
    obtain ⟨-, e, he, hpre, hvid, hstub⟩ := (has_real_media_iff fs show_path suffix).mp hmem
    rw [hall e he hpre hvid] at hstub
    simp at hstub

/-- C2 witness: a directory whose only video file is stub-suffixed has no
real media, by the characterization theorem. -/
theorem c2_witness :
    has_real_media fsOnlyStub ["lib", "ShowB"] "- lock.mp4" = false :=
  (c2_hasRealMedia_characterization fsOnlyStub ["lib", "ShowB"] "- lock.mp4").2.2 (by decide)

/-- C1: the per-show loop of `process_sonarr_instance` takes the needs-stub
branch (invoking `create_stub_file`) exactly when the show is monitored, its
lowercased status is continuing or upcoming, and `has_real_media` is false
on the derived directory; in particular an unmonitored show never takes it,
whatever its status or the filesystem state. -/
theorem c1_needsStub_classification (lib : List String)
    (tf : Option (List String × String)) (suffix : String) (plex : Bool)
    (fs : FS) (sh : ShowRec) :
    ((processShow lib tf suffix plex fs sh).stubAttempted = true ↔
      (sh.monitored = true ∧
       (strToLower sh.status = "continuing" ∨ strToLower sh.status = "upcoming") ∧
       has_real_media fs (derivedShowPath lib sh) suffix = false)) ∧
    (sh.monitored = false → (processShow lib tf suffix plex fs sh).stubAttempted = false) := by
  unfold processShow
  cases hm : sh.monitored <;>
    by_cases hc : strToLower sh.status = "continuing" <;>
    by_cases hu : strToLower sh.status = "upcoming" <;>
    cases hr : has_real_media fs (derivedShowPath lib sh) suffix <;>
    simp [hm, hc, hu, hr]

/-- C1 witness: a concrete unmonitored show is not classified needs-stub. -/
theorem c1_witness :
    (processShow ["lib"] Option.none "- lock.mp4" false
      { dirs := [], files := [] }
      { title := "X", status := "continuing", monitored := false,
        tmdbId := some 3, path := ["data", "X"] }).stubAttempted = false :=
  (c1_needsStub_classification ["lib"] Option.none "- lock.mp4" false
    { dirs := [], files := [] }
    { title := "X", status := "continuing", monitored := false,
      tmdbId := some 3, path := ["data", "X"] }).2 rfl

/-- C9: a show that passes the needs-stub classification but has no TMDb id
still gets a stub-creation attempt, is not synced to the media server, and
contributes nothing to the identifier list. -/
theorem c9_missing_tmdb_id (lib : List String)
    (tf : Option (List String × String)) (suffix : String) (plex : Bool)
    (fs : FS) (sh : ShowRec) :
    sh.tmdbId = Option.none →
    sh.monitored = true →
    (strToLower sh.status = "continuing" ∨ strToLower sh.status = "upcoming") →
    has_real_media fs (derivedShowPath lib sh) suffix = false →
    (processShow lib tf suffix plex fs sh).stubAttempted = true ∧
    (processShow lib tf suffix plex fs sh).plexSynced = false ∧
    (processShow lib tf suffix plex fs sh).idAdded = Option.none := by
  intro ht hm hs hr
  unfold processShow
  rcases hs with hs | hs <;> simp [ht, hm, hs, hr, optIntTruthy]

/-- C9 witness: a concrete id-less monitored continuing show in an empty
library gets the stub attempt, no sync and no identifier. -/
theorem c9_witness :
    (processShow ["lib"] Option.none "- lock.mp4" true
      { dirs := [], files := [] }
      { title := "Y", status := "continuing", monitored := true,
        tmdbId := Option.none, path := ["data", "Y"] }).stubAttempted = true ∧
    (processShow ["lib"] Option.none "- lock.mp4" true
      { dirs := [], files := [] }
      { title := "Y", status := "continuing", monitored := true,
        tmdbId := Option.none, path := ["data", "Y"] }).plexSynced = false ∧
    (processShow ["lib"] Option.none "- lock.mp4" true
      { dirs := [], files := [] }
      { title := "Y", status := "continuing", monitored := true,
        tmdbId := Option.none, path := ["data", "Y"] }).idAdded = Option.none :=
  c9_missing_tmdb_id ["lib"] Option.none "- lock.mp4" true
    { dirs := [], files := [] }
    { title := "Y", status := "continuing", monitored := true,
      tmdbId := Option.none, path := ["data", "Y"] }
    rfl rfl (Or.inl (by decide)) (by decide)

/-- C4 counterexample: a run over a show whose directory holds a real video
file next to an existing stub leaves the filesystem unchanged — the stub
file is still present afterwards, refuting the claim that the run removes
it. -/
theorem c4_counterexample :
    processShow ["lib"] Option.none "- lock.mp4" false fsRealAndStub showA =
      ⟨fsRealAndStub, false, false, Option.none⟩ ∧
    fsRealAndStub.fileAt ["lib", "ShowA"] "ShowA- lock.mp4" = true := by
  constructor
  · decide
  · decide

/-- C4 (amended): when the derived directory holds a real (non-stub) video
file, the per-show step performs no action at all: the filesystem is
returned unchanged (in particular no stub file is removed — the source has
no cleanup path), no sync happens, and the identifier is omitted. -/
theorem c4_real_media_no_action (lib : List String)
    (tf : Option (List String × String)) (suffix : String) (plex : Bool)
    (fs : FS) (sh : ShowRec) :
    has_real_media fs (derivedShowPath lib sh) suffix = true →
    processShow lib tf suffix plex fs sh = ⟨fs, false, false, Option.none⟩ := by
  intro hr
  unfold processShow
  split
  · rfl
  · simp [hr]

/-- C4 witness for the amended theorem, at the concrete counterexample
input. -/
theorem c4_witness :
    processShow ["lib"] Option.none "- lock.mp4" true fsRealAndStub showA =
      ⟨fsRealAndStub, false, false, Option.none⟩ := by
  have h := c4_real_media_no_action ["lib"] Option.none "- lock.mp4" true fsRealAndStub showA
  exact h (by decide)

/-- Helper: a file is at `(d, n)` exactly when its entry count is positive. -/
theorem fileAt_iff_countAt_pos (fs : FS) (d : List String) (n : String) :
    fs.fileAt d n = true ↔ 0 < fs.countAt d n := by
  rw [FS.countAt, List.length_pos, Ne, List.filter_eq_nil_iff]
  simp [FS.fileAt, List.any_eq_true]

/-- Helper: adding the target file bumps its count by one. -/
theorem countAt_addFile_self (fs : FS) (d : List String) (n : String) (c : List Nat) :
    (fs.addFile d n c).countAt d n = fs.countAt d n + 1 := by
  simp [FS.addFile, FS.countAt, List.filter_cons]

/-- Helper: the target file exists after adding it. -/
theorem fileAt_addFile_self (fs : FS) (d : List String) (n : String) (c : List Nat) :
    (fs.addFile d n c).fileAt d n = true := by
  simp [FS.addFile, FS.fileAt]

/-- Helper: `create_stub_file` returns success without touching the
filesystem when the target file already exists. -/
theorem create_stub_file_exists (fs : FS) (sp : List String) (title : String)
    (tf : Option (List String × String)) (suffix : String)
    (h : fs.fileAt sp (sanitizeTitle title ++ suffix) = true) :
    create_stub_file fs sp title tf suffix = (true, fs) := by
  simp [create_stub_file, h]

/-- Helper: when the stub target is absent (and no directory squats the
target path or the configured template path), `create_stub_file` succeeds
and adds exactly one copy of the target file. -/
theorem create_stub_file_new (fs : FS) (sp : List String) (title : String)
    (tf : Option (List String × String)) (suffix : String)
    (h1 : fs.fileAt sp (sanitizeTitle title ++ suffix) = false)
    (h2 : fs.dirs.contains (sp ++ [sanitizeTitle title ++ suffix]) = false)
    (h3 : ∀ d n, tf = some (d, n) →
      fs.dirs.contains (d ++ [n]) = false ∧ d ++ [n] ≠ sp) :
    (create_stub_file fs sp title tf suffix).1 = true ∧
    (create_stub_file fs sp title tf suffix).2.fileAt
      sp (sanitizeTitle title ++ suffix) = true ∧
    (create_stub_file fs sp title tf suffix).2.countAt
      sp (sanitizeTitle title ++ suffix) = fs.countAt sp (sanitizeTitle title ++ suffix) + 1 := by
  have hfiles : (if fs.pathExists sp = true then fs
      else { fs with dirs := sp :: fs.dirs } : FS).files = fs.files := by
    split <;> rfl
  have hcount : ∀ c : List Nat,
      ((if fs.pathExists sp = true then fs
        else { fs with dirs := sp :: fs.dirs } : FS).addFile
          sp (sanitizeTitle title ++ suffix) c).countAt sp (sanitizeTitle title ++ suffix) =
        fs.countAt sp (sanitizeTitle title ++ suffix) + 1 := by
    intro c
    rw [countAt_addFile_self]
    simp [FS.countAt, hfiles]
  unfold create_stub_file
  simp only [h1, h2, Bool.or_self, Bool.false_eq_true, if_false]
  match tf with
  | Option.none =>
    exact ⟨rfl, fileAt_addFile_self _ _ _ _, hcount _⟩
  | some (d, n) =>
    obtain ⟨hd, hne⟩ := h3 d n rfl
    have hdirs : (if fs.pathExists sp = true then fs
        else { fs with dirs := sp :: fs.dirs } : FS).dirs.contains (d ++ [n]) = false := by
      split
      · exact hd
      · simp only [List.contains_cons, hd, Bool.or_false]
        simp only [beq_eq_false_iff_ne, ne_eq]
        exact fun hx => hne hx
    cases hc : (if fs.pathExists sp = true then fs
        else { fs with dirs := sp :: fs.dirs } : FS).contentAt d n with
    | some c =>
      simp only [hc]
      exact ⟨trivial, fileAt_addFile_self _ _ _ _, hcount _⟩
    | none =>
      simp only [hc, hdirs, Bool.false_eq_true, if_false]
      exact ⟨trivial, fileAt_addFile_self _ _ _ _, hcount _⟩

/-- C3: `ensureStub` idempotence.  (a) If the target stub file already
exists, the call returns success and leaves the filesystem untouched.
(b) Starting from a state where the target occurs at most once and no
directory occupies the target path (nor, when a template is configured, is
the template path a directory or the show directory itself), the first call
succeeds, the second call returns success changing nothing, and exactly one
copy of the target file is on disk afterwards. -/
theorem c3_ensureStub_idempotent (fs : FS) (sp : List String) (title : String)
    (tf : Option (List String × String)) (suffix : String) :
    (fs.fileAt sp (sanitizeTitle title ++ suffix) = true →
      create_stub_file fs sp title tf suffix = (true, fs)) ∧
    (fs.countAt sp (sanitizeTitle title ++ suffix) ≤ 1 →
     fs.dirs.contains (sp ++ [sanitizeTitle title ++ suffix]) = false →
     (∀ d n, tf = some (d, n) →
       fs.dirs.contains (d ++ [n]) = false ∧ d ++ [n] ≠ sp) →
     (create_stub_file fs sp title tf suffix).1 = true ∧
     create_stub_file (create_stub_file fs sp title tf suffix).2 sp title tf suffix =
       (true, (create_stub_file fs sp title tf suffix).2) ∧
     (create_stub_file fs sp title tf suffix).2.countAt
       sp (sanitizeTitle title ++ suffix) = 1) := by
  constructor
  · exact create_stub_file_exists fs sp title tf suffix
  · intro h0 h2 h3
    by_cases h : fs.fileAt sp (sanitizeTitle title ++ suffix) = true
    · have hr := create_stub_file_exists fs sp title tf suffix h
      rw [hr]
      have hpos := (fileAt_iff_countAt_pos fs sp (sanitizeTitle title ++ suffix)).mp h
      refine ⟨rfl, hr, ?_⟩
      show fs.countAt sp (sanitizeTitle title ++ suffix) = 1
      omega
    · rw [Bool.not_eq_true] at h
      obtain ⟨hs, hat, hcnt⟩ := create_stub_file_new fs sp title tf suffix h h2 h3
      have hzero : fs.countAt sp (sanitizeTitle title ++ suffix) = 0 := by
        by_contra hnz
        have := (fileAt_iff_countAt_pos fs sp (sanitizeTitle title ++ suffix)).mpr (by omega)
        rw [this] at h
        simp at h
      refine ⟨hs, create_stub_file_exists _ sp title tf suffix hat, ?_⟩
      omega

/-- C3 witness: with the stub already on disk, the call is a success no-op;
and starting from an empty library, two successive calls leave exactly one
stub file. -/
theorem c3_witness :
    create_stub_file
      { dirs := [["lib", "S"]], files := [⟨["lib", "S"], "S- lock.mp4", [0]⟩] }
      ["lib", "S"] "S" Option.none "- lock.mp4" =
      (true, { dirs := [["lib", "S"]], files := [⟨["lib", "S"], "S- lock.mp4", [0]⟩] }) ∧
    (create_stub_file
      (create_stub_file { dirs := [], files := [] } ["lib", "S"] "S" Option.none "- lock.mp4").2
      ["lib", "S"] "S" Option.none "- lock.mp4" =
      (true,
        (create_stub_file { dirs := [], files := [] } ["lib", "S"] "S"
          Option.none "- lock.mp4").2) ∧
     (create_stub_file { dirs := [], files := [] } ["lib", "S"] "S"
        Option.none "- lock.mp4").2.countAt ["lib", "S"] "S- lock.mp4" = 1) := by
  constructor
  · exact (c3_ensureStub_idempotent
      { dirs := [["lib", "S"]], files := [⟨["lib", "S"], "S- lock.mp4", [0]⟩] }
      ["lib", "S"] "S" Option.none "- lock.mp4").1 (by decide)
  · have h := (c3_ensureStub_idempotent { dirs := [], files := [] }
      ["lib", "S"] "S" Option.none "- lock.mp4").2 (by decide) (by decide)
      (by intro d n hdn; cases hdn)
    exact ⟨h.2.1, by have := h.2.2; convert this using 2⟩

/-- Helper: the episode loop relates input and output pointwise — each
output episode is either the input episode unchanged, or the input episode
with only the watched flag raised, and in the latter case the input episode
is stub-backed. -/
theorem markStubWatched_pointwise (suffix : String) (eps : List PlexEpisode) :
    List.Forall₂
      (fun ep ep2 => ep2 = ep ∨
        (isStubEpisode suffix ep = true ∧ ep2 = { ep with isWatched := true }))
      eps (markStubWatched suffix eps) := by
  induction eps with
  | nil => exact List.Forall₂.nil
  | cons ep rest ih =>
    unfold markStubWatched
    by_cases h : isStubEpisode suffix ep = true
    · rw [if_pos h]
      refine List.Forall₂.cons ?_ ?_
      · by_cases hw : ep.isWatched
        · rw [if_pos hw]; exact Or.inl rfl
        · rw [if_neg hw]; exact Or.inr ⟨h, rfl⟩
      · exact List.forall₂_same.mpr fun x _ => Or.inl rfl
    · rw [if_neg h]
      exact List.Forall₂.cons (Or.inl rfl) ih

/-- Helper: if no episode is stub-backed, the loop changes nothing. -/
theorem markStubWatched_noStub (suffix : String) (eps : List PlexEpisode)
    (h : ∀ ep ∈ eps, isStubEpisode suffix ep = false) :
    markStubWatched suffix eps = eps := by
  induction eps with
  | nil => rfl
  | cons ep rest ih =>
    unfold markStubWatched
    rw [if_neg (by simp [h ep (List.mem_cons_self ep rest)]),
      ih fun e he => h e (List.mem_cons_of_mem ep he)]

/-- C5: during media-server synchronization only a stub-backed episode is
ever mutated, and the only mutation is raising its watched flag; an episode
whose backing files all avoid the stub suffix is returned unchanged, and
when no stub episode exists in the catalog the episode list is returned
unchanged (no failure). -/
theorem c5_only_stub_marked (suffix : String) (eps : List PlexEpisode) :
    List.Forall₂
      (fun ep ep2 => ep2 = ep ∨
        (isStubEpisode suffix ep = true ∧ ep2 = { ep with isWatched := true }))
      eps (markStubWatched suffix eps) ∧
    ((∀ ep ∈ eps, isStubEpisode suffix ep = false) →
      markStubWatched suffix eps = eps) := by
  exact ⟨markStubWatched_pointwise suffix eps, markStubWatched_noStub suffix eps⟩

/-- C5 witness: a catalog holding one real episode is returned unchanged. -/
theorem c5_witness :
    markStubWatched "- lock.mp4"
      [⟨"E1", [⟨[⟨some "/x/real.mkv"⟩]⟩], false⟩] =
      [⟨"E1", [⟨[⟨some "/x/real.mkv"⟩]⟩], false⟩] :=
  (c5_only_stub_marked "- lock.mp4"
    [⟨"E1", [⟨[⟨some "/x/real.mkv"⟩]⟩], false⟩]).2 (by decide)

/-- Helper: an instance whose inventory fetch raised contributes nothing
and leaves the filesystem untouched. -/
theorem processInstance_fetchNone (tf : Option (List String × String))
    (suffix : String) (plex : Bool) (fs : FS) (inst : SonarrInstance)
    (h : inst.fetchResult = Option.none) :
    processInstance tf suffix plex fs inst = ([], fs) := by
  unfold processInstance
  split
  · rfl
  · simp [h]

/-- C6: the emitted identifier set of a run over any instance list is
duplicate-free while retaining exactly the identifiers collected across
instances; and an instance whose inventory fetch fails contributes zero
identifiers and leaves the remaining instances to produce the same
aggregate as if it were absent. -/
theorem c6_dedup_and_failure_tolerance (tf : Option (List String × String))
    (suffix : String) (plex : Bool) (fs : FS)
    (pre post : List SonarrInstance) (inst : SonarrInstance) :
    (∀ instances : List SonarrInstance,
      (masterIds tf suffix plex fs instances).Nodup ∧
      ∀ x : Int, x ∈ masterIds tf suffix plex fs instances ↔
        x ∈ (runAllInstances tf suffix plex fs instances).1) ∧
    (inst.fetchResult = Option.none →
      processInstance tf suffix plex fs inst = ([], fs) ∧
      masterIds tf suffix plex fs (pre ++ inst :: post) =
        masterIds tf suffix plex fs (pre ++ post)) := by
  constructor
  · intro instances
    exact ⟨List.nodup_dedup _, fun x => List.mem_dedup⟩
  · intro h
    refine ⟨processInstance_fetchNone tf suffix plex fs inst h, ?_⟩
    unfold masterIds runAllInstances
    rw [List.foldl_append, List.foldl_cons]
    simp only [fun fs2 => processInstance_fetchNone tf suffix plex fs2 inst h,
      List.append_nil, Prod.mk.eta]
    rw [← List.foldl_append]

/-- C6 witness: two instances reporting the same show yield a single
identifier, and a failed instance in between contributes nothing. -/
theorem c6_witness :
    processInstance Option.none "- lock.mp4" false { dirs := [], files := [] }
      ⟨some "u", some "k", some ["lib"], Option.none⟩ =
      ([], { dirs := [], files := [] }) ∧
    masterIds Option.none "- lock.mp4" false { dirs := [], files := [] }
      ([⟨some "u", some "k", some ["lib"], some [showA]⟩] ++
        ⟨some "u", some "k", some ["lib"], Option.none⟩ ::
        [⟨some "u2", some "k2", some ["lib2"], some [showA]⟩]) =
      masterIds Option.none "- lock.mp4" false { dirs := [], files := [] }
        ([⟨some "u", some "k", some ["lib"], some [showA]⟩] ++
          [⟨some "u2", some "k2", some ["lib2"], some [showA]⟩]) :=
  (c6_dedup_and_failure_tolerance Option.none "- lock.mp4" false
    { dirs := [], files := [] }
    [⟨some "u", some "k", some ["lib"], some [showA]⟩]
    [⟨some "u2", some "k2", some ["lib2"], some [showA]⟩]
    ⟨some "u", some "k", some ["lib"], Option.none⟩).2 rfl

/-- Helper: looking up the key just set yields the new value. -/
theorem dictGet_dictSet_self (d : Dict) (k : String) (v : PyVal) :
    dictGet (dictSet d k v) k = some v := by
  induction d with
  | nil => simp [dictSet, dictGet]
  | cons kv rest ih =>
    obtain ⟨k2, v2⟩ := kv
    by_cases h : k2 = k
    · simp [dictSet, dictGet, h]
    · simp [dictSet, dictGet, h, ih]

/-- Helper: setting one key leaves lookups of other keys unchanged. -/
theorem dictGet_dictSet_ne (d : Dict) (k k2 : String) (v : PyVal)
    (h : k ≠ k2) : dictGet (dictSet d k v) k2 = dictGet d k2 := by
  induction d with
  | nil => simp [dictSet, dictGet, h]
  | cons kv rest ih =>
    obtain ⟨k3, v3⟩ := kv
    by_cases h3 : k3 = k
    · simp [dictSet, dictGet, h3, h]
    · by_cases h4 : k3 = k2 <;> simp [dictSet, dictGet, h3, h4, ih, Ne.symm h]

/-- Helper: the merge loop leaves keys absent from the override alone. -/
theorem mergeLoop_get_of_notMem (cond : PyVal → Bool) (specific : Dict) :
    ∀ (init : Dict) (k : String), k ∉ specific.map Prod.fst →
      dictGet (mergeLoop cond init specific) k = dictGet init k := by
  induction specific with
  | nil => intro init k _; rfl
  | cons kv rest ih =>
    intro init k hk
    obtain ⟨k2, v2⟩ := kv
    rw [List.map_cons, List.mem_cons, not_or] at hk
    unfold mergeLoop
    rw [List.foldl_cons]
    by_cases hc : cond v2 = true
    · rw [if_pos hc]
      rw [show List.foldl _ (dictSet init k2 v2) rest =
        mergeLoop cond (dictSet init k2 v2) rest from rfl]
      rw [ih (dictSet init k2 v2) k hk.2,
        dictGet_dictSet_ne init k2 k v2 fun hx => hk.1 hx.symm]
    · rw [if_neg hc]
      exact ih init k hk.2

/-- Helper: a key bound in the override to a value passing the condition is
looked up to that value after the merge (override keys duplicate-free). -/
theorem mergeLoop_get_of_mem (cond : PyVal → Bool) (specific : Dict) :
    ∀ (init : Dict) (k : String) (v : PyVal),
      (specific.map Prod.fst).Nodup → (k, v) ∈ specific → cond v = true →
      dictGet (mergeLoop cond init specific) k = some v := by
  induction specific with
  | nil => intro init k v _ hmem; cases hmem
  | cons kv rest ih =>
    intro init k v hnd hmem hc
    obtain ⟨k2, v2⟩ := kv
    rw [List.map_cons, List.nodup_cons] at hnd
    unfold mergeLoop
    rw [List.foldl_cons]
    rcases List.mem_cons.mp hmem with heq | hmem2
    · obtain ⟨hk, hv⟩ := Prod.mk.injEq .. ▸ heq
      subst hk hv
      rw [if_pos hc]
      rw [show List.foldl _ (dictSet init k v) rest =
        mergeLoop cond (dictSet init k v) rest from rfl]
      rw [mergeLoop_get_of_notMem cond rest (dictSet init k v) k hnd.1,
        dictGet_dictSet_self]
    · have := ih (if cond v2 = true then dictSet init k2 v2 else init) k v hnd.2 hmem2 hc
      by_cases hc2 : cond v2 = true
      · rw [if_pos hc2]
        rw [if_pos hc2] at this
        exact this
      · rw [if_neg hc2]
        rw [if_neg hc2] at this
        exact this

/-- Helper: a key bound in the override to a value failing the condition is
ignored by the merge (override keys duplicate-free). -/
theorem mergeLoop_get_of_mem_skip (cond : PyVal → Bool) (specific : Dict) :
    ∀ (init : Dict) (k : String) (v : PyVal),
      (specific.map Prod.fst).Nodup → (k, v) ∈ specific → cond v = false →
      dictGet (mergeLoop cond init specific) k = dictGet init k := by
  induction specific with
  | nil => intro init k v _ hmem; cases hmem
  | cons kv rest ih =>
    intro init k v hnd hmem hc
    obtain ⟨k2, v2⟩ := kv
    rw [List.map_cons, List.nodup_cons] at hnd
    unfold mergeLoop
    rw [List.foldl_cons]
    rcases List.mem_cons.mp hmem with heq | hmem2
    · obtain ⟨hk, hv⟩ := Prod.mk.injEq .. ▸ heq
      subst hk hv
      rw [if_neg (by simp [hc])]
      exact mergeLoop_get_of_notMem cond rest init k hnd.1
    · have hkne : k2 ≠ k := by
        intro hx
        exact hnd.1 (hx ▸ (List.mem_map.mpr ⟨(k, v), hmem2, rfl⟩))
      by_cases hc2 : cond v2 = true
      · rw [if_pos hc2,
          show List.foldl _ (dictSet init k2 v2) rest =
            mergeLoop cond (dictSet init k2 v2) rest from rfl,
          ih (dictSet init k2 v2) k v hnd.2 hmem2 hc,
          dictGet_dictSet_ne init k2 k v2 hkne]
      · rw [if_neg hc2]
        exact ih init k v hnd.2 hmem2 hc

/-- C7 counterexample: in the `get_merged_style` variant an override value
that is the empty string (which is not null) does NOT replace the default —
the merged style keeps the default, refuting the claim that every non-null
override value replaces the default. -/
theorem c7_counterexample :
    (get_merged_style [("color", PyVal.str "white")] [("color", PyVal.str "")] "3 Days").map
        (fun r => dictGet r.2 "color") = some (some (PyVal.str "white")) ∧
    (get_merged_style [("color", PyVal.str "white")] [("color", PyVal.str "")] "3 Days").map
        (fun r => dictGet r.2 "color") ≠ some (some (PyVal.str "")) := by
  constructor
  · decide
  · decide

/-- C7 (amended): `merge_styles` satisfies the claimed semantics exactly —
a non-null override value replaces the default, keys only in the defaults
pass through, and an explicit null override is ignored; the
`get_merged_style` variant additionally ignores empty-string overrides
(defaults win for both null and the empty string).  Override dicts have
duplicate-free keys, as Python dicts do. -/
theorem c7_merge_semantics (defaults specific : Dict) (k : String) (v : PyVal)
    (hnd : (specific.map Prod.fst).Nodup) :
    ((k, v) ∈ specific → v ≠ PyVal.null →
      dictGet (merge_styles defaults specific) k = some v) ∧
    (k ∉ specific.map Prod.fst →
      dictGet (merge_styles defaults specific) k = dictGet defaults k) ∧
    ((k, PyVal.null) ∈ specific →
      dictGet (merge_styles defaults specific) k = dictGet defaults k) ∧
    ((k, v) ∈ specific → v ≠ PyVal.null → v ≠ PyVal.str "" →
      dictGet (mergeSpecific defaults specific) k = some v) ∧
    ((k, PyVal.str "") ∈ specific →
      dictGet (mergeSpecific defaults specific) k = dictGet defaults k) := by
  by_cases hsp : specific = []
  · subst hsp
    refine ⟨fun hmem => absurd hmem (List.not_mem_nil _), fun _ => ?_,
      fun hmem => absurd hmem (List.not_mem_nil _),
      fun hmem => absurd hmem (List.not_mem_nil _),
      fun hmem => absurd hmem (List.not_mem_nil _)⟩
    rfl
  · have hms : merge_styles defaults specific =
        mergeLoop (fun v => !(v == PyVal.null)) defaults specific := by
      unfold merge_styles
      rw [if_neg hsp]
    refine ⟨?_, ?_, ?_, ?_, ?_⟩
    · intro hmem hv
      rw [hms]
      exact mergeLoop_get_of_mem _ specific defaults k v hnd hmem (by simp [hv])
    · intro hk
      rw [hms]
      exact mergeLoop_get_of_notMem _ specific defaults k hk
    · intro hmem
      rw [hms]
      exact mergeLoop_get_of_mem_skip _ specific defaults k PyVal.null hnd hmem (by simp)
    · intro hmem hv hv2
      exact mergeLoop_get_of_mem _ specific defaults k v hnd hmem (by simp [hv, hv2])
    · intro hmem
      exact mergeLoop_get_of_mem_skip _ specific defaults k (PyVal.str "") hnd hmem (by simp)

/-- C7 witness: at a concrete override `\x7ba: null, b: "x"\x7d` over defaults
`\x7ba: "d1", c: "d2"\x7d`, the merge keeps `a = "d1"`, sets `b = "x"` and
passes `c` through. -/
theorem c7_witness :
    dictGet (merge_styles [("a", PyVal.str "d1"), ("c", PyVal.str "d2")]
      [("a", PyVal.null), ("b", PyVal.str "x")]) "b" = some (PyVal.str "x") ∧
    dictGet (merge_styles [("a", PyVal.str "d1"), ("c", PyVal.str "d2")]
      [("a", PyVal.null), ("b", PyVal.str "x")]) "a" = some (PyVal.str "d1") ∧
    dictGet (merge_styles [("a", PyVal.str "d1"), ("c", PyVal.str "d2")]
      [("a", PyVal.null), ("b", PyVal.str "x")]) "c" = some (PyVal.str "d2") := by
  refine ⟨(c7_merge_semantics [("a", PyVal.str "d1"), ("c", PyVal.str "d2")]
      [("a", PyVal.null), ("b", PyVal.str "x")] "b" (PyVal.str "x") (by decide)).1
      (by decide) (by decide), ?_, ?_⟩
  · have h := (c7_merge_semantics [("a", PyVal.str "d1"), ("c", PyVal.str "d2")]
      [("a", PyVal.null), ("b", PyVal.str "x")] "a" (PyVal.str "x") (by decide)).2.2.1
      (by decide)
    rw [h]
    decide
  · have h := (c7_merge_semantics [("a", PyVal.str "d1"), ("c", PyVal.str "d2")]
      [("a", PyVal.null), ("b", PyVal.str "x")] "c" (PyVal.str "x") (by decide)).2.1
      (by decide)
    rw [h]
    decide

/-- C8: with overlay generation enabled and a configured output path, a run
with an empty aggregate identifier set still attempts to write an artifact
whose identifier list is explicitly empty; a failing write yields the
reported `writeFailed` outcome carrying the built artifact; and whatever the
write result, generation flag or path, the run always reaches its terminal
completion step. -/
theorem c8_empty_artifact_and_no_abort (writeOk : Bool) (fontExists : PyVal → Bool)
    (gd ov : Dict) (p : String) (ids : List Int) :
    (p ≠ "" →
      (attemptedData (runEmission true (some p) writeOk fontExists gd ov []).1).map
          OverlayEntry.tmdb_show = some [] ∧
      (runEmission true (some p) false fontExists gd ov ids).1 =
        EmitOutcome.writeFailed (generateOverlayData fontExists gd ov ids)) ∧
    (∀ (generate : Bool) (path : Option String),
      (runEmission generate path writeOk fontExists gd ov ids).2 = true) := by
  constructor
  · intro hp
    constructor
    · cases writeOk <;>
        simp [runEmission, hp, generateOverlayData, attemptedData]
    · simp [runEmission, hp]
  · intro generate path
    unfold runEmission
    cases generate
    · rfl
    · cases path with
      | none => rfl
      | some q =>
        by_cases hq : q = ""
        · simp [hq]
        · simp [hq]

/-- C8 witness: a concrete enabled run with an empty id list and a failing
write attempts the explicitly empty artifact and still completes. -/
theorem c8_witness :
    (attemptedData (runEmission true (some "overlays/returning.yml") false
        (fun _ => false) [] [] []).1).map OverlayEntry.tmdb_show = some [] ∧
    (runEmission true (some "overlays/returning.yml") false
        (fun _ => false) [] [] [7]).2 = true :=
  ⟨((c8_empty_artifact_and_no_abort false (fun _ => false) [] []
      "overlays/returning.yml" [7]).1 (by decide)).1,
   (c8_empty_artifact_and_no_abort false (fun _ => false) [] []
      "overlays/returning.yml" [7]).2 true (some "overlays/returning.yml")⟩

/-- C10 counterexample: with the (permitted) unordered trigger configuration
`critical_days = 5, warning_days = 5, notice_days = 0`, limit disabled, a
delta of 2 days exceeds the notice threshold yet the classifier returns
`("2 Days", "critical")` rather than `(None, None)`, refuting the claimed
"exactly when" characterization over every trigger configuration. -/
theorem c10_counterexample :
    get_time_string_and_urgency ⟨some 5, some 5, some 0, some false⟩ 2 0 30 =
      (some "2 Days", some "critical") ∧
    get_time_string_and_urgency ⟨some 5, some 5, some 0, some false⟩ 2 0 30 ≠
      (Option.none, Option.none) := by
  constructor
  · decide
  · decide

/-- C10 (amended): provided the configured thresholds are ordered
(`0 ≤ notice`, `critical ≤ warning ≤ notice`, as the defaults 3/7/14 are),
the classifier returns `("Expiring", critical)` for negative day deltas,
returns `(None, None)` exactly when the delta exceeds the notice threshold
and the collection-limit option is disabled or the delta exceeds the
deletion window, otherwise yields an urgency among critical, warning,
notice, monitor; and an item classified `(None, None)` is excluded from the
emitted overlay groups. -/
theorem c10_urgency_classifier (tr : TriggersCfg) (days : Int) (seconds : Nat)
    (limit : Int)
    (h1 : 0 ≤ tr.notice_days.getD 14)
    (h2 : tr.critical_days.getD 3 ≤ tr.warning_days.getD 7)
    (h3 : tr.warning_days.getD 7 ≤ tr.notice_days.getD 14) :
    (days < 0 → get_time_string_and_urgency tr days seconds limit =
      (some "Expiring", some "critical")) ∧
    (get_time_string_and_urgency tr days seconds limit = (Option.none, Option.none) ↔
      (tr.notice_days.getD 14 < days ∧
        (tr.use_maintainerr_limit.getD false = false ∨ limit < days))) ∧
    (∀ ts us, get_time_string_and_urgency tr days seconds limit = (ts, some us) →
      us = "critical" ∨ us = "warning" ∨ us = "notice" ∨ us = "monitor") ∧
    (get_time_string_and_urgency tr days seconds limit = (Option.none, Option.none) →
      ∀ idv, itemGroupKey (get_time_string_and_urgency tr days seconds limit) idv =
        Option.none) := by
  refine ⟨?_, ?_, ?_, ?_⟩
  · intro hd
    unfold get_time_string_and_urgency
    rw [if_pos hd]
  · cases hu : tr.use_maintainerr_limit.getD false with
    | false =>
      unfold get_time_string_and_urgency
      simp only [hu, Bool.false_and, Bool.false_eq_true, if_false]
      split_ifs with g1 g2 g3 g4 g5 <;> simp <;> omega
    | true =>
      unfold get_time_string_and_urgency
      simp only [hu, Bool.true_and]
      by_cases g6 : days ≤ limit
      · rw [decide_eq_true g6]
        split_ifs with g1 g2 g3 g4 g5 g7 g8 <;>
          first
          | (simp
             omega)
          | simp_all
      · rw [decide_eq_false g6]
        split_ifs with g1 g2 g3 g4 g5 g7 g8 <;>
          first
          | (simp
             omega)
          | simp_all
  · intro ts us h
    unfold get_time_string_and_urgency at h
    split_ifs at h <;> simp only [Prod.mk.injEq] at h <;>
      first
      | (obtain ⟨-, h2⟩ := h
         injection h2 with h2
         subst h2
         tauto)
      | (obtain ⟨-, h2⟩ := h
         injection h2)
  · intro h idv
    rw [h]
    rfl

/-- C10 witness: with the default thresholds and the collection-limit option
disabled, a 20-day delta is classified `(None, None)`. -/
theorem c10_witness :
    get_time_string_and_urgency ⟨Option.none, Option.none, Option.none, Option.none⟩
      20 0 30 = (Option.none, Option.none) :=
  (c10_urgency_classifier ⟨Option.none, Option.none, Option.none, Option.none⟩
    20 0 30 (by decide) (by decide) (by decide)).2.1.mpr ⟨by decide, Or.inl rfl⟩
